import Mathlib

/-
Formal model of the nsddataBot news-monitoring bot (src/bot.py).

The bot scrapes the nsddata.ru news index, extracts structured event
records from the HTML, deduplicates them in a sqlite-backed ledger
keyed by `news_id`, stores per-user ISIN subscriptions, and routes new
events to the users tracking the event's ISIN.

Embedding conventions:
 * BeautifulSoup query results on one fetched page are modelled by the
   `Page` structure: the text of the first `h1`, the text of the first
   `time` element, the text of the first `div` with a date-like class,
   the list of `a` elements in document order, and the raw page text.
 * sqlite tables are modelled as insertion-ordered lists of rows;
   `INSERT OR IGNORE` under a UNIQUE constraint appends iff no row with
   the same key exists and reports `cursor.rowcount > 0`.
 * `requests.get` is modelled by `FetchOutcome`: either a raised network
   error / timeout, or a response with a status code and a parsed page.
 * `datetime.now().strftime("%d.%m.%Y")` is modelled by `strftime_dmY`
   applied to a `Date` parameter threaded into the functions that use it.
 * Python `str.upper` / `str.lower` / `str.strip` and the regexes of
   bot.py are implemented character-by-character below, covering the
   ASCII and Cyrillic ranges the program manipulates.
-/

-- ### Python-like character and string helpers

def isPySpace (c : Char) : Bool :=
  c = ' ' || c = '\t' || c = '\n' || c = '\r' || c.toNat = 11 || c.toNat = 12

/-- Python `str.strip()`: drop whitespace from both ends. -/
def pyStrip (s : String) : String :=
  ⟨((s.data.dropWhile isPySpace).reverse.dropWhile isPySpace).reverse⟩

/-- Python `str.lower()` on the ASCII and Cyrillic letters used by bot.py. -/
def pyLower (c : Char) : Char :=
  if 0x410 ≤ c.toNat ∧ c.toNat ≤ 0x42F then Char.ofNat (c.toNat + 0x20)
  else if c.toNat = 0x401 then Char.ofNat 0x451
  else c.toLower

/-- Python `str.upper()` on the ASCII and Cyrillic letters used by bot.py. -/
def pyUpper (c : Char) : Char :=
  if 0x430 ≤ c.toNat ∧ c.toNat ≤ 0x44F then Char.ofNat (c.toNat - 0x20)
  else if c.toNat = 0x451 then Char.ofNat 0x401
  else c.toUpper

def lowerStr (s : String) : String := ⟨s.data.map pyLower⟩

def upperStr (s : String) : String := ⟨s.data.map pyUpper⟩

def startsWithChars : List Char → List Char → Bool
  | [], _ => true
  | _ :: _, [] => false
  | a :: as, b :: bs => a == b && startsWithChars as bs

/-- Python `needle in hay` substring test. -/
def hasSubstr (needle : List Char) : List Char → Bool
  | [] => needle.isEmpty
  | c :: rest => startsWithChars needle (c :: rest) || hasSubstr needle rest

-- ### The regexes of bot.py

/-- One character of the class `[0-9A-Z]`. -/
def isIsinChar (c : Char) : Bool := c.isDigit || c.isUpper

/-- Try to match `RU[0-9A-Z]{10}` at the head of the character list. -/
def isinHere : List Char → Option String
  | 'R' :: 'U' :: tail =>
    if (tail.take 10).length == 10 && (tail.take 10).all isIsinChar then
      some ⟨'R' :: 'U' :: tail.take 10⟩
    else none
  | _ => none

/-- `re.search(r'RU[0-9A-Z]{10}', ·)`: leftmost match. -/
def findIsin : List Char → Option String
  | [] => none
  | c :: rest =>
    match isinHere (c :: rest) with
    | some s => some s
    | none => findIsin rest

/-- `re.match(r'^RU[0-9A-Z]{10}$', ·)` as a Bool (full anchored match). -/
def isValidIsin (s : String) : Bool :=
  match s.data with
  | 'R' :: 'U' :: rest => rest.length == 10 && rest.all isIsinChar
  | _ => false

/-- Greedy `\d+`: maximal digit prefix and the remainder. -/
def takeDigits : List Char → List Char × List Char
  | [] => ([], [])
  | c :: rest =>
    if c.isDigit then
      let p := takeDigits rest
      (c :: p.1, p.2)
    else ([], c :: rest)

/-- The literal `руб` under `re.IGNORECASE`. -/
def matchesRub : List Char → Bool
  | r :: u :: b :: _ => pyLower r == 'р' && pyLower u == 'у' && pyLower b == 'б'
  | _ => false

/-- Try to match `(\d+[.,]\d+)\s*руб` at the head; returns group 1. -/
def paymentHere (l : List Char) : Option String :=
  let d1 := takeDigits l
  if d1.1.isEmpty then none
  else
    match d1.2 with
    | sep :: r2 =>
      if sep == '.' || sep == ',' then
        let d2 := takeDigits r2
        if d2.1.isEmpty then none
        else if matchesRub (d2.2.dropWhile isPySpace) then
          some ⟨d1.1 ++ sep :: d2.1⟩
        else none
      else none
    | [] => none

/-- `re.search(r'(\d+[.,]\d+)\s*руб', ·, re.IGNORECASE)`: leftmost match. -/
def findPayment : List Char → Option String
  | [] => none
  | c :: rest =>
    match paymentHere (c :: rest) with
    | some s => some s
    | none => findPayment rest

-- ### Dates

structure Date where
  day : Nat
  month : Nat
  year : Nat
deriving Repr, DecidableEq

def digitChar (n : Nat) : Char := Char.ofNat (48 + n % 10)

/-- `strftime("%d.%m.%Y")` for calendar dates (day and month zero-padded
to two digits, year printed as four digits). -/
def strftime_dmY (d : Date) : String :=
  ⟨[digitChar (d.day / 10), digitChar d.day, '.',
    digitChar (d.month / 10), digitChar d.month, '.',
    digitChar (d.year / 1000), digitChar (d.year / 100), digitChar (d.year / 10),
    digitChar d.year]⟩

/-- The `DD.MM.YYYY` shape: ten characters, digits with dots at positions 2 and 5. -/
def isDdMmYyyy (s : String) : Bool :=
  match s.data with
  | [d1, d2, p1, m1, m2, p2, y1, y2, y3, y4] =>
    d1.isDigit && d2.isDigit && p1 == '.' && m1.isDigit && m2.isDigit && p2 == '.' &&
    y1.isDigit && y2.isDigit && y3.isDigit && y4.isDigit
  | _ => false

-- ### Data model

/-- The BeautifulSoup view of one fetched HTML document (see header note). -/
structure Anchor where
  href : Option String
  text : String
deriving Repr, DecidableEq

structure Page where
  h1Text : Option String
  timeText : Option String
  divDateText : Option String
  anchors : List Anchor
  rawText : String
deriving Repr, DecidableEq

/-- Result of `NSDMonitor.parse_news_page`. -/
structure ParsedNews where
  title : String
  isin : Option String
  event_type : String
  payment_amount : Option String
  published_date : String
deriving Repr, DecidableEq

/-- The news dict built by `NSDMonitor.get_recent_news`, which is also the
row shape of the `tracked_news` table. -/
structure NewsData where
  news_id : String
  news_url : String
  title : String
  isin : Option String
  event_type : String
  payment_amount : Option String
  published_date : String
deriving Repr, DecidableEq

inductive FetchOutcome where
  | failure
  | response (status : Nat) (page : Page)
deriving Repr, DecidableEq

-- ### NSDMonitor.parse_news_page

def parse_news_page (now_date : String) (page : Page) : ParsedNews :=
  let title := match page.h1Text with
    | some t => pyStrip t
    | none => "Неизвестно"
  let isin := findIsin title.data
  let titleLower := title.data.map pyLower
  let event_type :=
    if hasSubstr "выплата купонного дохода".data titleLower then "Выплата купонного дохода"
    else if hasSubstr "погашение".data titleLower then "Погашение"
    else if hasSubstr "оферта".data titleLower then "Оферта"
    else "Неизвестно"
  let payment_amount := (findPayment page.rawText.data).map (fun s => s ++ " руб.")
  let published_date := match page.timeText with
    | some t => pyStrip t
    | none =>
      match page.divDateText with
      | some t => pyStrip t
      | none => now_date
  { title := title, isin := isin, event_type := event_type,
    payment_amount := payment_amount, published_date := published_date }

-- ### NSDMonitor.get_recent_news

def base_url : String := "https://nsddata.ru"

/-- Python `str.split('/')`: split at every slash, keeping empty parts. -/
def splitOnSlash : List Char → List (List Char)
  | [] => [[]]
  | c :: rest =>
    let r := splitOnSlash rest
    if c = '/' then [] :: r
    else
      match r with
      | [] => [[c]]
      | h :: t => (c :: h) :: t

/-- Python `str.startswith`. -/
def pyStartsWith (s : String) (p : String) : Bool := startsWithChars p.data s.data

/-- `href.split('/')[-1] if '/' in href else href`. -/
def lastSegment (href : String) : String :=
  if href.data.contains '/' then ⟨(splitOnSlash href.data).getLastD href.data⟩ else href

/-- The `find_all('a', href=re.compile(r'/ru/news/view/'))` filter: the anchor
has an href and the pattern is found somewhere in it. -/
def anchorMatches (a : Anchor) : Bool :=
  match a.href with
  | some h => hasSubstr "/ru/news/view/".data h.data
  | none => false

/-- `NSDMonitor.get_recent_news`: on a fetch error or a non-200 status the
exception handler / status check yields `[]`; otherwise scan the page for
anchors whose href matches `/ru/news/view/`, keep the first 10, and build a
news dict for each.  Note the source parses the index page itself
(`response.text`) for every candidate's detail fields. -/
def get_recent_news (now_date : String) : FetchOutcome → List NewsData
  | .failure => []
  | .response status page =>
    if status ≠ 200 then []
    else
      let news_elements := page.anchors.filter anchorMatches
      (news_elements.take 10).filterMap fun element =>
        match element.href with
        | some href =>
          if (href != "") && hasSubstr "/ru/news/view/".data href.data then
            let news_details := parse_news_page now_date page
            some {
              news_id := lastSegment href,
              news_url := if pyStartsWith href "/" then base_url ++ href else href,
              title := if element.text == "" then "Без названия" else element.text,
              isin := news_details.isin,
              event_type := news_details.event_type,
              payment_amount := news_details.payment_amount,
              published_date := news_details.published_date }
          else none
        | none => none

-- ### The tracked_news ledger

/-- `NSDMonitor.is_news_tracked`: `SELECT 1 FROM tracked_news WHERE news_id = ?`. -/
def is_news_tracked (ledger : List NewsData) (news_id : String) : Bool :=
  ledger.any fun r => r.news_id == news_id

/-- `NSDMonitor.save_news`: `INSERT OR IGNORE` under the UNIQUE constraint on
`news_id`; returns `cursor.rowcount > 0`. -/
def save_news (ledger : List NewsData) (nd : NewsData) : Bool × List NewsData :=
  if is_news_tracked ledger nd.news_id then (false, ledger)
  else (true, ledger ++ [nd])

/-- A sequence of `save_news` calls; returns the list of results and the final
ledger. -/
def save_many (ledger : List NewsData) : List NewsData → List Bool × List NewsData
  | [] => ([], ledger)
  | r :: rest =>
    let s := save_news ledger r
    let t := save_many s.2 rest
    (s.1 :: t.1, t.2)

/-- The loop body of `NSDMonitor.check_new_news` over an already-fetched
candidate list. -/
def check_new_news_from : List NewsData → List NewsData →
    List NewsData × List NewsData
  | [], ledger => ([], ledger)
  | news :: rest, ledger =>
    if is_news_tracked ledger news.news_id then
      check_new_news_from rest ledger
    else
      let res := save_news ledger news
      let tail := check_new_news_from rest res.2
      if res.1 then (news :: tail.1, tail.2) else tail

/-- `NSDMonitor.check_new_news`: fetch, then keep the candidates that were
freshly saved.  Returns the new-news list and the updated ledger. -/
def check_new_news (now_date : String) (fetch : FetchOutcome)
    (ledger : List NewsData) : List NewsData × List NewsData :=
  check_new_news_from (get_recent_news now_date fetch) ledger

-- ### The user_isins subscription store

abbrev SubscriptionStore := List (Int × String)

/-- `NSDMonitor.add_isin_tracking`: `INSERT OR IGNORE` under
`UNIQUE(user_id, isin)` of the uppercased code; returns `cursor.rowcount > 0`. -/
def add_isin_tracking (store : SubscriptionStore) (isin_code : String)
    (user_id : Int) : Bool × SubscriptionStore :=
  let row := (user_id, upperStr isin_code)
  if row ∈ store then (false, store) else (true, store ++ [row])

/-- `NSDMonitor.get_user_isins`: `SELECT isin FROM user_isins WHERE user_id = ?`. -/
def get_user_isins (store : SubscriptionStore) (user_id : Int) : List String :=
  (store.filter fun r => r.1 == user_id).map fun r => r.2

/-- Iterate `add_isin_tracking` n times with the same arguments. -/
def add_isin_iter (store : SubscriptionStore) (isin_code : String)
    (user_id : Int) : Nat → SubscriptionStore
  | 0 => store
  | n + 1 => (add_isin_tracking (add_isin_iter store isin_code user_id n) isin_code user_id).2

-- ### The /add command front-end

inductive AddReply where
  | usageError
  | invalidFormat
  | added (code : String)
  | alreadyTracked (code : String)
deriving Repr, DecidableEq

/-- The `add_isin` command handler: take the first argument, uppercase and
strip it, validate against `^RU[0-9A-Z]{10}$`, then call
`add_isin_tracking`. -/
def add_isin (store : SubscriptionStore) (user_id : Int) (args : List String) :
    AddReply × SubscriptionStore :=
  match args with
  | [] => (.usageError, store)
  | arg :: _ =>
    let isin_code := pyStrip (upperStr arg)
    if !(isValidIsin isin_code) then (.invalidFormat, store)
    else
      let r := add_isin_tracking store isin_code user_id
      if r.1 then (.added isin_code, r.2) else (.alreadyTracked isin_code, r.2)

-- ### Routing (manual_check / scheduled_news_check)

/-- `[news for news in new_news if news.get('isin') in user_isins]`.
In Python, `None in user_isins` is `False` because the store only holds
strings, so a record with a null isin is never kept. -/
def relevant_news (user_isins : List String) (new_news : List NewsData) :
    List NewsData :=
  new_news.filter fun news =>
    match news.isin with
    | some s => user_isins.contains s
    | none => false

-- ### Ledger lemmas

theorem is_news_tracked_append (l1 l2 : List NewsData) (n : String) :
    is_news_tracked (l1 ++ l2) n = (is_news_tracked l1 n || is_news_tracked l2 n) := by
  simp [is_news_tracked, List.any_append]

theorem is_news_tracked_singleton (r : NewsData) (n : String) :
    is_news_tracked [r] n = (r.news_id == n) := by
  simp [is_news_tracked]

theorem save_news_of_tracked (ledger : List NewsData) (r : NewsData)
    (h : is_news_tracked ledger r.news_id = true) :
    save_news ledger r = (false, ledger) := by
  unfold save_news
  simp [h]

theorem save_news_of_untracked (ledger : List NewsData) (r : NewsData)
    (h : is_news_tracked ledger r.news_id = false) :
    save_news ledger r = (true, ledger ++ [r]) := by
  unfold save_news
  simp [h]

theorem is_news_tracked_save (ledger : List NewsData) (r : NewsData) (n : String)
    (h : is_news_tracked ledger n = true) :
    is_news_tracked (save_news ledger r).2 n = true := by
  unfold save_news
  split
  · exact h
  · simp [is_news_tracked_append, h]

theorem is_news_tracked_save_self (ledger : List NewsData) (r : NewsData) :
    is_news_tracked (save_news ledger r).2 r.news_id = true := by
  unfold save_news
  split
  · assumption
  · simp [is_news_tracked_append, is_news_tracked_singleton]

theorem check_from_cons_tracked (news : NewsData) (rest ledger : List NewsData)
    (h : is_news_tracked ledger news.news_id = true) :
    check_new_news_from (news :: rest) ledger = check_new_news_from rest ledger := by
  simp [check_new_news_from, h]

theorem check_from_cons_untracked (news : NewsData) (rest ledger : List NewsData)
    (h : is_news_tracked ledger news.news_id = false) :
    check_new_news_from (news :: rest) ledger =
      (news :: (check_new_news_from rest (ledger ++ [news])).1,
        (check_new_news_from rest (ledger ++ [news])).2) := by
  simp [check_new_news_from, h, save_news_of_untracked _ _ h]

theorem check_from_tracked_mono (cands : List NewsData) :
    ∀ ledger n, is_news_tracked ledger n = true →
      is_news_tracked (check_new_news_from cands ledger).2 n = true := by
  induction cands with
  | nil => intro ledger n h; simpa [check_new_news_from] using h
  | cons news rest ih =>
    intro ledger n h
    cases htr : is_news_tracked ledger news.news_id with
    | true =>
      rw [check_from_cons_tracked _ _ _ htr]
      exact ih ledger n h
    | false =>
      rw [check_from_cons_untracked _ _ _ htr]
      exact ih (ledger ++ [news]) n (by simp [is_news_tracked_append, h])

theorem check_from_all_tracked (cands : List NewsData) :
    ∀ ledger c, c ∈ cands →
      is_news_tracked (check_new_news_from cands ledger).2 c.news_id = true := by
  induction cands with
  | nil => intro ledger c hc; cases hc
  | cons news rest ih =>
    intro ledger c hc
    cases htr : is_news_tracked ledger news.news_id with
    | true =>
      rw [check_from_cons_tracked _ _ _ htr]
      rcases List.mem_cons.mp hc with rfl | hmem
      · exact check_from_tracked_mono rest ledger _ htr
      · exact ih ledger c hmem
    | false =>
      rw [check_from_cons_untracked _ _ _ htr]
      rcases List.mem_cons.mp hc with rfl | hmem
      · exact check_from_tracked_mono rest (ledger ++ [c]) _
          (by simp [is_news_tracked_append, is_news_tracked_singleton])
      · exact ih (ledger ++ [news]) c hmem

theorem check_from_all_tracked_nil (cands : List NewsData) :
    ∀ ledger, (∀ c ∈ cands, is_news_tracked ledger c.news_id = true) →
      check_new_news_from cands ledger = ([], ledger) := by
  induction cands with
  | nil => intro ledger _; rfl
  | cons news rest ih =>
    intro ledger h
    rw [check_from_cons_tracked _ _ _ (h news (by simp))]
    exact ih ledger fun c hc => h c (by simp [hc])

theorem check_from_fresh (cands : List NewsData) :
    ∀ ledger, (cands.map fun c => c.news_id).Nodup →
      (∀ c ∈ cands, is_news_tracked ledger c.news_id = false) →
      check_new_news_from cands ledger = (cands, ledger ++ cands) := by
  induction cands with
  | nil => intro ledger _ _; simp [check_new_news_from]
  | cons news rest ih =>
    intro ledger hnd hfresh
    have h0 : is_news_tracked ledger news.news_id = false := hfresh news (by simp)
    rw [check_from_cons_untracked _ _ _ h0]
    rw [List.map_cons] at hnd
    obtain ⟨hhead, htail⟩ := List.nodup_cons.mp hnd
    have hfresh' : ∀ c ∈ rest, is_news_tracked (ledger ++ [news]) c.news_id = false := by
      intro c hc
      have h1 : is_news_tracked ledger c.news_id = false := hfresh c (by simp [hc])
      have h2 : news.news_id ≠ c.news_id := by
        intro he
        exact hhead (by exact List.mem_map.mpr ⟨c, hc, he.symm⟩)
      simp [is_news_tracked_append, is_news_tracked_singleton, h1, h2]
    rw [ih (ledger ++ [news]) htail hfresh']
    simp

-- ### C1

/-- C1: running `check_new_news` against an unchanged remote index response,
with candidates whose ids are pairwise distinct and not yet in the ledger,
returns exactly the fetched candidates the first time and the empty list the
second time. -/
theorem check_new_news_idempotent (now_date : String) (fetch : FetchOutcome)
    (ledger : List NewsData)
    (hnd : ((get_recent_news now_date fetch).map fun c => c.news_id).Nodup)
    (hfresh : ∀ c ∈ get_recent_news now_date fetch,
      is_news_tracked ledger c.news_id = false) :
    (check_new_news now_date fetch ledger).1 = get_recent_news now_date fetch ∧
    (check_new_news now_date fetch (check_new_news now_date fetch ledger).2).1 = [] := by
  constructor
  · unfold check_new_news
    rw [check_from_fresh _ _ hnd hfresh]
  · unfold check_new_news
    rw [check_from_all_tracked_nil _ _
      fun c hc => check_from_all_tracked _ _ c hc]

/-- A concrete index page with two candidate news items. -/
def pageEx : Page :=
  ⟨some "Выплата купонного дохода RU000A106SE5", none, none,
    [⟨some "/ru/news/view/111", "Новость 1"⟩, ⟨some "/ru/news/view/222", "Новость 2"⟩],
    "размер выплаты 12,34 руб на облигацию"⟩

theorem check_new_news_idempotent_witness :
    (((get_recent_news "01.01.2024" (FetchOutcome.response 200 pageEx)).map
        fun c => c.news_id).Nodup ∧
      (∀ c ∈ get_recent_news "01.01.2024" (FetchOutcome.response 200 pageEx),
        is_news_tracked [] c.news_id = false)) ∧
    ((check_new_news "01.01.2024" (FetchOutcome.response 200 pageEx) []).1 =
        get_recent_news "01.01.2024" (FetchOutcome.response 200 pageEx) ∧
      (check_new_news "01.01.2024" (FetchOutcome.response 200 pageEx)
          (check_new_news "01.01.2024" (FetchOutcome.response 200 pageEx) []).2).1 = []) :=
  ⟨⟨by decide, by decide⟩,
    check_new_news_idempotent "01.01.2024" (FetchOutcome.response 200 pageEx) []
      (by decide) (by decide)⟩

-- ### C2

theorem save_many_tracked (i : String) (rs : List NewsData) :
    ∀ ledger, (∀ r ∈ rs, r.news_id = i) → is_news_tracked ledger i = true →
      save_many ledger rs = (List.replicate rs.length false, ledger) := by
  induction rs with
  | nil => intro ledger _ _; rfl
  | cons r rest ih =>
    intro ledger hall htr
    have hid : r.news_id = i := hall r (by simp)
    have hsave : save_news ledger r = (false, ledger) :=
      save_news_of_tracked _ _ (by rw [hid]; exact htr)
    simp [save_many, hsave, ih ledger (fun x hx => hall x (by simp [hx])) htr,
      List.replicate_succ]

theorem save_many_count (i : String) (rs : List NewsData) :
    ∀ ledger, (∀ r ∈ rs, r.news_id = i) →
      (save_many ledger rs).1.count true ≤ 1 := by
  induction rs with
  | nil => intro ledger _; simp [save_many]
  | cons r rest ih =>
    intro ledger hall
    have hid : r.news_id = i := hall r (by simp)
    have hrest : ∀ x ∈ rest, x.news_id = i := fun x hx => hall x (by simp [hx])
    cases htr : is_news_tracked ledger r.news_id with
    | true =>
      have hsave : save_news ledger r = (false, ledger) := save_news_of_tracked _ _ htr
      have hz := save_many_tracked i rest ledger hrest (by rw [← hid]; exact htr)
      simp [save_many, hsave, hz]
      have : true ∉ List.replicate rest.length false := by simp [List.mem_replicate]
      simp [List.count_eq_zero.mpr this]
    | false =>
      have hsave : save_news ledger r = (true, ledger ++ [r]) :=
        save_news_of_untracked _ _ htr
      have htr' : is_news_tracked (ledger ++ [r]) i = true := by
        simp [is_news_tracked_append, is_news_tracked_singleton, hid]
      have hz := save_many_tracked i rest (ledger ++ [r]) hrest htr'
      simp [save_many, hsave, hz]
      have : true ∉ List.replicate rest.length false := by simp [List.mem_replicate]
      simp [List.count_cons, List.count_eq_zero.mpr this]

theorem save_news_keeps_nodup (ledger : List NewsData) (r : NewsData)
    (h : (ledger.map fun x => x.news_id).Nodup) :
    ((save_news ledger r).2.map fun x => x.news_id).Nodup := by
  cases htr : is_news_tracked ledger r.news_id with
  | true => rw [save_news_of_tracked _ _ htr]; exact h
  | false =>
    rw [save_news_of_untracked _ _ htr]
    have hnot : r.news_id ∉ ledger.map fun x => x.news_id := by
      intro hmem
      rcases List.mem_map.mp hmem with ⟨x, hx, hxe⟩
      have : is_news_tracked ledger r.news_id = true :=
        List.any_eq_true.mpr ⟨x, hx, by simp [hxe]⟩
      rw [this] at htr
      cases htr
    simp [List.nodup_append, h, hnot]

theorem save_many_keeps_nodup (rs : List NewsData) :
    ∀ ledger, (ledger.map fun x => x.news_id).Nodup →
      ((save_many ledger rs).2.map fun x => x.news_id).Nodup := by
  induction rs with
  | nil => intro ledger h; exact h
  | cons r rest ih =>
    intro ledger h
    simpa [save_many] using ih _ (save_news_keeps_nodup ledger r h)

/-- C2: across any sequence of `save_news` calls whose records share one
`news_id`, at most one call reports a fresh insert; the ledger's ids stay
duplicate-free; and once the id is tracked every call is a no-op returning
false. -/
theorem save_news_unique (i : String) (rs : List NewsData) (ledger : List NewsData)
    (hall : ∀ r ∈ rs, r.news_id = i)
    (hnd : (ledger.map fun r => r.news_id).Nodup) :
    (save_many ledger rs).1.count true ≤ 1 ∧
    ((save_many ledger rs).2.map fun r => r.news_id).Nodup ∧
    (is_news_tracked ledger i = true →
      save_many ledger rs = (List.replicate rs.length false, ledger)) :=
  ⟨save_many_count i rs ledger hall,
   save_many_keeps_nodup rs ledger hnd,
   fun htr => save_many_tracked i rs ledger hall htr⟩

/-- Two concrete ledger records sharing the id "111". -/
def recA : NewsData := ⟨"111", "url1", "заголовок 1", none, "Неизвестно", none, "01.01.2024"⟩

def recB : NewsData := ⟨"111", "url2", "заголовок 2", none, "Неизвестно", none, "02.01.2024"⟩

theorem save_news_unique_witness :
    ((∀ r ∈ [recA, recB, recA], r.news_id = "111") ∧
      (([] : List NewsData).map fun r => r.news_id).Nodup) ∧
    ((save_many [] [recA, recB, recA]).1.count true ≤ 1 ∧
      ((save_many [] [recA, recB, recA]).2.map fun r => r.news_id).Nodup ∧
      (is_news_tracked [] "111" = true →
        save_many [] [recA, recB, recA] =
          (List.replicate [recA, recB, recA].length false, []))) :=
  ⟨⟨by decide, by decide⟩,
    save_news_unique "111" [recA, recB, recA] [] (by decide) (by decide)⟩

-- ### C3

/-- The two candidate records produced from `pageEx`: every detail field is
parsed out of the shared index page, so they coincide. -/
def candA : NewsData :=
  ⟨"111", "https://nsddata.ru/ru/news/view/111", "Новость 1",
    some "RU000A106SE5", "Выплата купонного дохода", some "12,34 руб.", "01.01.2024"⟩

def candB : NewsData :=
  ⟨"222", "https://nsddata.ru/ru/news/view/222", "Новость 2",
    some "RU000A106SE5", "Выплата купонного дохода", some "12,34 руб.", "01.01.2024"⟩

/-- C3: the fetcher parses the index page itself for every candidate
(`parse_news_page(response.text)` in the source), so within one cycle two
candidates pointing at different detail pages still carry identical
`isin`, `event_type`, `payment_amount` and `published_date` values — the
fields are not extracted from each candidate's own detail page. -/
theorem get_recent_news_shared_fields_bug :
    get_recent_news "01.01.2024" (FetchOutcome.response 200 pageEx) = [candA, candB] ∧
    candA.news_url ≠ candB.news_url ∧
    candA.isin = candB.isin ∧
    candA.event_type = candB.event_type ∧
    candA.payment_amount = candB.payment_amount ∧
    candA.published_date = candB.published_date := by
  refine ⟨by decide, by decide, rfl, rfl, rfl, rfl⟩

-- ### C7

/-- C7: on a fetch failure (raised network error / timeout) or a non-200
status, `check_new_news` returns the empty new-event list and leaves the
ledger exactly as it was. -/
theorem check_new_news_fetch_failure (now_date : String) (ledger : List NewsData)
    (status : Nat) (page : Page) (h : status ≠ 200) :
    check_new_news now_date FetchOutcome.failure ledger = ([], ledger) ∧
    check_new_news now_date (FetchOutcome.response status page) ledger = ([], ledger) := by
  constructor
  · rfl
  · unfold check_new_news
    simp [get_recent_news, h, check_new_news_from]

theorem check_new_news_fetch_failure_witness :
    (404 ≠ 200) ∧
    (check_new_news "01.01.2024" FetchOutcome.failure [recA] = ([], [recA]) ∧
      check_new_news "01.01.2024" (FetchOutcome.response 404 pageEx) [recA] =
        ([], [recA])) :=
  ⟨by decide, check_new_news_fetch_failure "01.01.2024" [recA] 404 pageEx (by decide)⟩

-- ### C4

/-- C4: the routing filter keeps an event for a subscriber iff the event's
isin is non-null and belongs to the subscriber's tracked codes; null-isin
events are never kept; and the kept events form a sublist of the input, so
ingestion order is preserved. -/
theorem relevant_news_routing (user_isins : List String) (new_news : List NewsData) :
    (∀ e, e ∈ relevant_news user_isins new_news ↔
      (e ∈ new_news ∧ ∃ s, e.isin = some s ∧ s ∈ user_isins)) ∧
    (∀ e ∈ new_news, e.isin = none → e ∉ relevant_news user_isins new_news) ∧
    (relevant_news user_isins new_news).Sublist new_news := by
  have hmem : ∀ e : NewsData, e ∈ relevant_news user_isins new_news ↔
      (e ∈ new_news ∧ ∃ s, e.isin = some s ∧ s ∈ user_isins) := by
    intro e
    unfold relevant_news
    rw [List.mem_filter]
    constructor
    · rintro ⟨h1, h2⟩
      refine ⟨h1, ?_⟩
      cases hi : e.isin with
      | none => rw [hi] at h2; cases h2
      | some s =>
        rw [hi] at h2
        exact ⟨s, rfl, by simpa using h2⟩
    · rintro ⟨h1, s, hs, hin⟩
      refine ⟨h1, ?_⟩
      rw [hs]
      simpa using hin
  refine ⟨hmem, ?_, List.filter_sublist _⟩
  intro e _ hnone hcontra
  rcases (hmem e).mp hcontra with ⟨_, s, hs, _⟩
  rw [hnone] at hs
  cases hs

/-- The spec's routing example: one tracked event, one null-isin event, one
event with an untracked isin. -/
def evPos : NewsData :=
  ⟨"1", "u1", "t1", some "RU000A106SE5", "Выплата купонного дохода", none, "01.01.2024"⟩

def evNull : NewsData :=
  ⟨"2", "u2", "t2", none, "Неизвестно", none, "01.01.2024"⟩

def evOther : NewsData :=
  ⟨"3", "u3", "t3", some "RU000A999XX1", "Погашение", none, "01.01.2024"⟩

theorem relevant_news_routing_witness :
    (evNull ∈ [evPos, evNull, evOther] ∧ evNull.isin = none) ∧
    evNull ∉ relevant_news ["RU000A106SE5"] [evPos, evNull, evOther] ∧
    relevant_news ["RU000A106SE5"] [evPos, evNull, evOther] = [evPos] :=
  ⟨⟨by decide, rfl⟩,
    (relevant_news_routing ["RU000A106SE5"] [evPos, evNull, evOther]).2.1 evNull
      (by decide) rfl,
    by decide⟩

-- ### C5

/-- C5: the /add command handler rejects, leaving the store unchanged, any
argument whose uppercased-and-stripped form fails `^RU[0-9A-Z]{10}$`; on a
valid argument it accepts: for a code not yet tracked it replies `added` and
persists exactly the (user, uppercased code) pair, and for an already
tracked code it replies `alreadyTracked` with the store unchanged. -/
theorem add_isin_validates (store : SubscriptionStore) (user_id : Int) (code : String) :
    (isValidIsin (pyStrip (upperStr code)) = false →
      add_isin store user_id [code] = (AddReply.invalidFormat, store)) ∧
    (isValidIsin (pyStrip (upperStr code)) = true →
      ((user_id, upperStr (pyStrip (upperStr code))) ∉ store →
        add_isin store user_id [code] =
          (AddReply.added (pyStrip (upperStr code)),
            store ++ [(user_id, upperStr (pyStrip (upperStr code)))])) ∧
      ((user_id, upperStr (pyStrip (upperStr code))) ∈ store →
        add_isin store user_id [code] =
          (AddReply.alreadyTracked (pyStrip (upperStr code)), store))) := by
  constructor
  · intro h
    simp [add_isin, h]
  · intro h
    constructor
    · intro hnot
      simp [add_isin, h, add_isin_tracking, hnot]
    · intro hmem
      simp [add_isin, h, add_isin_tracking, hmem]

theorem add_isin_validates_witness :
    (isValidIsin (pyStrip (upperStr "RU123")) = false ∧
      add_isin [] 1 ["RU123"] = (AddReply.invalidFormat, [])) ∧
    (isValidIsin (pyStrip (upperStr "RU000A106SE5")) = true ∧
      ((1 : Int), upperStr (pyStrip (upperStr "RU000A106SE5"))) ∉
        ([] : SubscriptionStore) ∧
      add_isin [] 1 ["RU000A106SE5"] =
        (AddReply.added (pyStrip (upperStr "RU000A106SE5")),
          [] ++ [((1 : Int), upperStr (pyStrip (upperStr "RU000A106SE5")))])) :=
  ⟨⟨by decide, (add_isin_validates [] 1 "RU123").1 (by decide)⟩,
    ⟨by decide, by decide,
      ((add_isin_validates [] 1 "RU000A106SE5").2 (by decide)).1 (by decide)⟩⟩

-- ### C6 and C10

theorem mem_add_isin_tracking (store : SubscriptionStore) (code : String)
    (user_id : Int) :
    (user_id, upperStr code) ∈ (add_isin_tracking store code user_id).2 := by
  unfold add_isin_tracking
  by_cases hmem : (user_id, upperStr code) ∈ store
  · simp [hmem]
  · simp [hmem]

theorem add_isin_tracking_mem_noop (store : SubscriptionStore) (code : String)
    (user_id : Int) (h : (user_id, upperStr code) ∈ store) :
    add_isin_tracking store code user_id = (false, store) := by
  unfold add_isin_tracking
  simp [h]

theorem add_isin_iter_eq (store : SubscriptionStore) (code : String) (user_id : Int) :
    ∀ n, add_isin_iter store code user_id (n + 1) =
      (add_isin_tracking store code user_id).2 := by
  intro n
  induction n with
  | zero => rfl
  | succ m ih =>
    show (add_isin_tracking (add_isin_iter store code user_id (m + 1)) code user_id).2 =
      (add_isin_tracking store code user_id).2
    rw [ih, add_isin_tracking_mem_noop _ _ _ (mem_add_isin_tracking store code user_id)]

/-- C6: adding a pair not yet in the store succeeds, re-adding it is a no-op
returning false, and after any positive number of identical add calls the
user's listed codes contain the (uppercased) code exactly once. -/
theorem add_isin_tracking_idempotent (store : SubscriptionStore) (user_id : Int)
    (code : String) (n : Nat)
    (h : (user_id, upperStr code) ∉ store) (hn : 1 ≤ n) :
    (add_isin_tracking store code user_id).1 = true ∧
    (add_isin_tracking (add_isin_tracking store code user_id).2 code user_id).1 = false ∧
    (get_user_isins (add_isin_iter store code user_id n) user_id).count
      (upperStr code) = 1 := by
  have hfirst : add_isin_tracking store code user_id =
      (true, store ++ [(user_id, upperStr code)]) := by
    unfold add_isin_tracking
    simp [h]
  have hsnd : (add_isin_tracking (add_isin_tracking store code user_id).2
      code user_id).1 = false := by
    rw [hfirst, add_isin_tracking_mem_noop _ _ _ (by simp)]
  refine ⟨by rw [hfirst], hsnd, ?_⟩
  cases n with
  | zero => omega
  | succ m =>
    rw [add_isin_iter_eq, hfirst]
    have hsplit : get_user_isins (store ++ [(user_id, upperStr code)]) user_id =
        get_user_isins store user_id ++ [upperStr code] := by
      simp [get_user_isins, List.filter_append]
    rw [hsplit, List.count_append]
    have h0 : upperStr code ∉ get_user_isins store user_id := by
      intro hv
      rcases List.mem_map.mp hv with ⟨r, hr, hre⟩
      obtain ⟨hrs, hru⟩ := List.mem_filter.mp hr
      have : r = (user_id, upperStr code) := by
        obtain ⟨a, b⟩ := r
        simp only at hre
        simp only [beq_iff_eq] at hru
        simp [hru, hre]
      exact h (this ▸ hrs)
    rw [List.count_eq_zero.mpr h0]
    simp

theorem add_isin_tracking_idempotent_witness :
    (((1 : Int), upperStr "RU000A106SE5") ∉ ([] : SubscriptionStore) ∧ 1 ≤ 3) ∧
    ((add_isin_tracking [] "RU000A106SE5" 1).1 = true ∧
      (add_isin_tracking (add_isin_tracking [] "RU000A106SE5" 1).2 "RU000A106SE5" 1).1
        = false ∧
      (get_user_isins (add_isin_iter [] "RU000A106SE5" 1 3) 1).count
        (upperStr "RU000A106SE5") = 1) :=
  ⟨⟨by decide, by decide⟩,
    add_isin_tracking_idempotent [] 1 "RU000A106SE5" 3 (by decide) (by decide)⟩

/-- C10: the store-level add operation validates nothing: for any string
whatsoever it stores the (user, uppercased code) pair — after the call the
pair is in the store, and the store either was unchanged (pair already
present) or gained exactly that pair. -/
theorem add_isin_tracking_no_validation (store : SubscriptionStore)
    (user_id : Int) (code : String) :
    (user_id, upperStr code) ∈ (add_isin_tracking store code user_id).2 ∧
    ((add_isin_tracking store code user_id).2 = store ∨
      (add_isin_tracking store code user_id).2 =
        store ++ [(user_id, upperStr code)]) := by
  refine ⟨mem_add_isin_tracking store code user_id, ?_⟩
  unfold add_isin_tracking
  by_cases hmem : (user_id, upperStr code) ∈ store
  · left
    simp [hmem]
  · right
    simp [hmem]

-- ### C8

theorem digitChar_isDigit (n : Nat) : (digitChar n).isDigit = true := by
  have h : n % 10 < 10 := Nat.mod_lt _ (by decide)
  have h10 : n % 10 = 0 ∨ n % 10 = 1 ∨ n % 10 = 2 ∨ n % 10 = 3 ∨ n % 10 = 4 ∨
      n % 10 = 5 ∨ n % 10 = 6 ∨ n % 10 = 7 ∨ n % 10 = 8 ∨ n % 10 = 9 := by omega
  unfold digitChar
  rcases h10 with h | h | h | h | h | h | h | h | h | h <;> rw [h] <;> decide

theorem strftime_dmY_ddmmyyyy (d : Date) : isDdMmYyyy (strftime_dmY d) = true := by
  simp [isDdMmYyyy, strftime_dmY, digitChar_isDigit]

/-- C8: the extractor is total, and each missing field falls back to its
documented default independently of the others: for any page with no `h1`
(whatever its date elements) the title is the literal placeholder
"Неизвестно", and for any page with no date-bearing element (whatever its
heading) the published date is the current date, which is always of the
`DD.MM.YYYY` shape. -/
theorem parse_news_page_defaults (page : Page) (now : Date) :
    (page.h1Text = none →
      (parse_news_page (strftime_dmY now) page).title = "Неизвестно") ∧
    (page.timeText = none → page.divDateText = none →
      (parse_news_page (strftime_dmY now) page).published_date = strftime_dmY now ∧
      isDdMmYyyy ((parse_news_page (strftime_dmY now) page).published_date) = true) := by
  constructor
  · intro h1
    simp [parse_news_page, h1]
  · intro h2 h3
    constructor <;> simp [parse_news_page, h2, h3, strftime_dmY_ddmmyyyy]

/-- A page with a date element but no heading. -/
def pageNoHeading : Page := ⟨none, some "05.03.2024", none, [], ""⟩

/-- A page with a heading but no date-bearing element. -/
def pageNoDate : Page := ⟨some "Погашение облигаций", none, none, [], ""⟩

theorem parse_news_page_defaults_witness :
    (pageNoHeading.h1Text = none ∧
      (parse_news_page (strftime_dmY ⟨7, 3, 2024⟩) pageNoHeading).title =
        "Неизвестно") ∧
    (pageNoDate.timeText = none ∧ pageNoDate.divDateText = none ∧
      (parse_news_page (strftime_dmY ⟨7, 3, 2024⟩) pageNoDate).published_date =
        strftime_dmY ⟨7, 3, 2024⟩ ∧
      isDdMmYyyy ((parse_news_page (strftime_dmY ⟨7, 3, 2024⟩)
          pageNoDate).published_date) = true) :=
  ⟨⟨rfl, (parse_news_page_defaults pageNoHeading ⟨7, 3, 2024⟩).1 rfl⟩,
    ⟨rfl, rfl,
      ((parse_news_page_defaults pageNoDate ⟨7, 3, 2024⟩).2 rfl rfl).1,
      ((parse_news_page_defaults pageNoDate ⟨7, 3, 2024⟩).2 rfl rfl).2⟩⟩

-- ### C9

theorem get_recent_news_200 (now_date : String) (page : Page) :
    get_recent_news now_date (FetchOutcome.response 200 page) =
      ((page.anchors.filter anchorMatches).take 10).filterMap fun element =>
        match element.href with
        | some href =>
          if (href != "") && hasSubstr "/ru/news/view/".data href.data then
            some {
              news_id := lastSegment href,
              news_url := if pyStartsWith href "/" then base_url ++ href else href,
              title := if element.text == "" then "Без названия" else element.text,
              isin := (parse_news_page now_date page).isin,
              event_type := (parse_news_page now_date page).event_type,
              payment_amount := (parse_news_page now_date page).payment_amount,
              published_date := (parse_news_page now_date page).published_date }
          else none
        | none => none := by
  simp [get_recent_news]

/-- C9: on a 200 response the fetcher yields at most 10 candidates, and every
candidate stems from an index anchor whose href contains the item-detail path
`/ru/news/view/`; its `news_id` is the href's last path segment and its
`news_url` is the href prefixed with the base URL when the href is relative. -/
theorem get_recent_news_candidates (now_date : String) (page : Page) (c : NewsData)
    (hc : c ∈ get_recent_news now_date (FetchOutcome.response 200 page)) :
    (get_recent_news now_date (FetchOutcome.response 200 page)).length ≤ 10 ∧
    ∃ a ∈ page.anchors, ∃ href, a.href = some href ∧
      hasSubstr "/ru/news/view/".data href.data = true ∧
      c.news_id = lastSegment href ∧
      c.news_url = (if pyStartsWith href "/" then base_url ++ href else href) := by
  rw [get_recent_news_200] at hc ⊢
  constructor
  · calc (List.filterMap _ ((page.anchors.filter anchorMatches).take 10)).length
        ≤ ((page.anchors.filter anchorMatches).take 10).length :=
          List.length_filterMap_le _ _
      _ ≤ 10 := by rw [List.length_take]; exact Nat.min_le_left _ _
  · rcases List.mem_filterMap.mp hc with ⟨a, ha, hfa⟩
    have hmem : a ∈ page.anchors :=
      List.mem_of_mem_filter (List.mem_of_mem_take ha)
    cases hhref : a.href with
    | none =>
      rw [hhref] at hfa
      cases hfa
    | some href =>
      rw [hhref] at hfa
      by_cases hcond : ((href != "") && hasSubstr "/ru/news/view/".data href.data) = true
      · simp only [hcond, if_true, Option.some.injEq] at hfa
        refine ⟨a, hmem, href, hhref, ((Bool.and_eq_true _ _).mp hcond).2, ?_, ?_⟩
        · rw [← hfa]
        · rw [← hfa]
      · simp only [hcond, Bool.false_eq_true, if_false] at hfa
        cases hfa

theorem get_recent_news_candidates_witness :
    candA ∈ get_recent_news "01.01.2024" (FetchOutcome.response 200 pageEx) ∧
    ((get_recent_news "01.01.2024" (FetchOutcome.response 200 pageEx)).length ≤ 10 ∧
      ∃ a ∈ pageEx.anchors, ∃ href, a.href = some href ∧
        hasSubstr "/ru/news/view/".data href.data = true ∧
        candA.news_id = lastSegment href ∧
        candA.news_url = (if pyStartsWith href "/" then base_url ++ href else href)) :=
  ⟨by decide, get_recent_news_candidates "01.01.2024" pageEx candA (by decide)⟩
